import Mathlib

/-!
Verification of the adaptive render pipeline and directory navigation model of
the AscentViewer image viewer (`ascv_main.py`).

Paths and strings are modelled as `List Char` (`Str`).  Python string methods
used by the source (`str.lower` as sort key, `str.replace`, `os.path.basename`,
`glob.glob`, `list.index`, list subscripts with negative-index wraparound) are
translated below.  The mutable widget/session state of the `MainUi` class is
the record `AppState`; side effects on the GUI (pixmap updates, thumbnail
writes, timer arms/stops, directory scans, log reports) are collected in an
explicit effect list, and uncaught Python exceptions are a `PyErr` component of
each result.  The filesystem and the image decoder are oracles passed to each
operation: `fsList` enumerates the names in a directory (in enumeration order)
and `decode` yields the dimensions of a decodable image, `none` for a file that
`PIL.Image.open` would fail on.
-/

/-- Paths and Python strings, modelled as lists of characters. -/
abbrev Str := List Char

/-- Python `str.lower`, modelled characterwise. -/
def lowerStr (s : Str) : Str := s.map Char.toLower

/-- Boolean lexicographic comparison on character lists: Python string `<=`. -/
def lexLe : Str → Str → Bool
  | [], _ => true
  | _ :: _, [] => false
  | a :: as, b :: bs => if a < b then true else if b < a then false else lexLe as bs

def lexLe_refl (s : Str) : lexLe s s = true := by
  induction s with
  | nil => rfl
  | cons a as ih => simp [lexLe, ih]

def lexLe_total (a b : Str) : lexLe a b = true ∨ lexLe b a = true := by
  induction a generalizing b with
  | nil => left; rfl
  | cons x xs ih =>
    cases b with
    | nil => right; rfl
    | cons y ys =>
      rcases lt_trichotomy x y with h | h | h
      · left; simp [lexLe, h]
      · subst h
        rcases ih ys with h' | h'
        · left; simp [lexLe, h']
        · right; simp [lexLe, h']
      · right; simp [lexLe, h]

def lexLe_cons_iff {x y : Char} {xs ys : Str} :
    lexLe (x :: xs) (y :: ys) = true ↔ x < y ∨ (x = y ∧ lexLe xs ys = true) := by
  rcases lt_trichotomy x y with h | h | h
  · simp [lexLe, h]
  · subst h; simp [lexLe, lt_irrefl]
  · have h1 : ¬ x < y := lt_asymm h
    have h2 : x ≠ y := ne_of_gt h
    simp [lexLe, h1, h, h2]

def lexLe_trans {a : Str} : ∀ {b c : Str},
    lexLe a b = true → lexLe b c = true → lexLe a c = true := by
  induction a with
  | nil => intro b c _ _; rfl
  | cons x xs ih =>
    intro b c h1 h2
    cases b with
    | nil => simp [lexLe] at h1
    | cons y ys =>
      cases c with
      | nil => simp [lexLe] at h2
      | cons z zs =>
        rw [lexLe_cons_iff] at h1 h2 ⊢
        rcases h1 with h1 | ⟨rfl, h1⟩
        · rcases h2 with h2 | ⟨rfl, h2⟩
          · exact Or.inl (lt_trans h1 h2)
          · exact Or.inl h1
        · rcases h2 with h2 | ⟨rfl, h2⟩
          · exact Or.inl h2
          · exact Or.inr ⟨rfl, ih h1 h2⟩

/-- The ordering used by `dirMakeImageList`: `self.dirImageList_.sort(key=str.lower)`
compares the lowercased full paths. -/
def lowRel (a b : Str) : Prop := lexLe (lowerStr a) (lowerStr b) = true

instance : DecidableRel lowRel := fun a b =>
  inferInstanceAs (Decidable (lexLe (lowerStr a) (lowerStr b) = true))

instance : IsTotal Str lowRel := ⟨fun a b => lexLe_total (lowerStr a) (lowerStr b)⟩

instance : IsTrans Str lowRel := ⟨fun _ _ _ => lexLe_trans⟩

/-- The backslash normalisation of `dirMakeImageList`:
`[files.replace("\\", "/") for files in self.dirImageList_]`. -/
def normSlash (s : Str) : Str := s.map (fun c => if c = '\\' then '/' else c)

/-- Python `os.path.basename` for POSIX paths: the part after the last slash. -/
def pyBasename (s : Str) : Str := (s.reverse.takeWhile (fun c => c ≠ '/')).reverse

/-- Left-to-right removal of every non-overlapping occurrence of a non-empty
pattern, the core of Python `str.replace(old, "")`.  The first argument is
fuel, instantiated with the length of the scanned string (each step consumes
at least one character, so the fuel never runs out on the intended calls). -/
def stripGo (pat : Str) : Nat → Str → Str
  | _, [] => []
  | 0, s => s
  | fuel + 1, c :: rest =>
    if pat.isPrefixOf (c :: rest) then stripGo pat fuel ((c :: rest).drop pat.length)
    else c :: stripGo pat fuel rest

/-- Python `s.replace(pat, "")` (an empty pattern leaves the string unchanged,
matching CPython, which only inserts the empty replacement). The source uses it
to compute the parent directory:
`self.dirPath_ = self.imgFilePath.replace(os.path.basename(self.imgFilePath), "")`. -/
def pyReplaceEmpty (s pat : Str) : Str :=
  if pat = [] then s else stripGo pat s.length s

/-- Parent-directory string as the source computes it for `openImage`. -/
def pyDirOf (p : Str) : Str := pyReplaceEmpty p (pyBasename p)

/-- Head of `os.path.split` applied to the glob pattern `f"{dirPath}/{pat}"`
(the basename patterns `*.png` etc. contain no slash): trailing slashes are
stripped unless the head consists of slashes only. -/
def globDirname (dirPath : Str) : Str :=
  let head := dirPath ++ ['/']
  if head.all (fun c => c = '/') then head
  else (head.reverse.dropWhile (fun c => c = '/')).reverse

/-- Python `os.path.join(d, n)` for a name `n` that does not start with a
slash, as `glob` applies it to each matched name. -/
def osJoin (d n : Str) : Str :=
  if d = [] then n
  else if d.getLast? = some '/' then d ++ n
  else d ++ '/' :: n

/-- Match of the glob basename pattern `*.ext` against a directory entry name.
Per the documented semantics of the `glob` module, `*` does not match a name
that starts with a dot, so hidden files are never returned. -/
def globMatch (ext n : Str) : Bool := ext.isSuffixOf n && !(n.head? == some '.')

/-- The extension suffixes of the five glob patterns in `dirMakeImageList`:
`fileTypes = ("*.png", "*.jpg", "*.jpeg", "*.bmp", "*.gif")`. -/
def fileTypes : List Str :=
  [['.', 'p', 'n', 'g'], ['.', 'j', 'p', 'g'], ['.', 'j', 'p', 'e', 'g'],
   ['.', 'b', 'm', 'p'], ['.', 'g', 'i', 'f']]

/-- A name carries one of the supported image extensions. -/
def supportedExt (n : Str) : Bool := fileTypes.any (fun ext => ext.isSuffixOf n)

/-- The list-building core of `dirMakeImageList`, given the enumeration-order
name listing of the scanned directory: the per-pattern glob results are
concatenated, backslashes are normalised, and the list is sorted with
`key=str.lower` (a stable sort, modelled by insertion sort on `lowRel`). -/
def scanEntries (names : List Str) (dirPath : Str) : List Str :=
  let d := globDirname dirPath
  let l := fileTypes.flatMap (fun ext => (names.filter (globMatch ext)).map (osJoin d))
  List.insertionSort lowRel (l.map normSlash)

/-- Python `list.index` as an optional index; `none` is the raised `ValueError`. -/
def pyIndex : List Str → Str → Option Nat
  | [], _ => none
  | a :: as, x => if a = x then some 0 else (pyIndex as x).map (· + 1)

/-- Python list subscription with negative-index wraparound; `none` is the
raised `IndexError`. -/
def pyGet (l : List Str) (i : Int) : Option Str :=
  let j := if i < 0 then (l.length : Int) + i else i
  if 0 ≤ j then l.get? j.toNat else none

/-- Source of a displayed pixmap: the reusable thumbnail slot or the
full-resolution image file. -/
inductive PixSrc
  | thumbFile (path : Str)
  | imageFile (path : Str)
deriving DecidableEq, Repr

/-- A pixmap as handed to `self.label.setPixmap`: its source, the target box it
was scaled into with `KeepAspectRatio`, and whether `SmoothTransformation`
(high-fidelity interpolation) was used. -/
structure Pix where
  src : PixSrc
  w : Nat
  h : Nat
  smooth : Bool
deriving DecidableEq, Repr

/-- Uncaught Python exceptions the translated code can raise. -/
inductive PyErr
  | unidentifiedImage
  | valueError
  | indexError
deriving DecidableEq, Repr

/-- Observable side effects of the translated code, in program order. -/
inductive Eff
  | saveThumb (path : Str)
  | setPixmap (p : Pix)
  | setInfoLabels (name : Str)
  | timerStart (ms : Nat)
  | timerStop
  | scanDir (dir : Str)
  | logScanEmpty
  | enableNavButtons
deriving DecidableEq, Repr

/-- The mutable fields of `MainUi` that the two subsystems touch.  `timer`
models the `QTimer`: `none` when inactive, `some d` when armed with deadline
`d` (`isActive()` is `isSome`).  `label` is the pixmap currently displayed by
`self.label`. -/
structure AppState where
  dirPath : Str := []
  imgFilePath : Str := []
  dirImageList : List Str := []
  imageNumber : Int := 0
  mwWidth : Nat := 0
  mwHeight : Nat := 0
  imTOut : Str := []
  imWidth : Nat := 0
  timer : Option Nat := none
  label : Option Pix := none
deriving DecidableEq, Repr

/-- Result of running a translated method: the state after the call (Python
mutations made before an exception persist), the effects emitted, and the
uncaught exception if one was raised. -/
structure PyRes where
  s : AppState
  effs : List Eff
  err : Option PyErr
deriving DecidableEq, Repr

/-- Image decoder oracle: dimensions of a decodable file, `none` when
`PIL.Image.open` raises. -/
abbrev Decoder := Str → Option (Nat × Nat)

/-- Filesystem oracle: enumeration-order name listing of a directory. -/
abbrev FS := Str → List Str

/-- The fixed reusable thumbnail slot
`"data/user/temp/thumbnails/tn_current-thumb.png"`. -/
def thumbSlotPath : Str :=
  ['d', 'a', 't', 'a', '/', 'u', 's', 'e', 'r', '/', 't', 'e', 'm', 'p', '/',
   't', 'h', 'u', 'm', 'b', 'n', 'a', 'i', 'l', 's', '/', 't', 'n', '_',
   'c', 'u', 'r', 'r', 'e', 'n', 't', '-', 't', 'h', 'u', 'm', 'b', '.',
   'p', 'n', 'g']

/-- Translation of `updateFunction(self, i)`.  The viewport dimensions `vw`,
`vh` stand for the `self.label.frameGeometry()` reads; `now` is the current
time used to model `self.timer.start(250)` arming a deadline of `now + 250`.
For `i == 0` the image is decoded (raising if undecodable), the thumbnail slot
is rewritten, and the label is set twice: once from the thumbnail and then from
the full image, both with smooth interpolation.  For `i == 1` the timer is
started only if it is not already active, and the label is redrawn from the
thumbnail slot without smooth interpolation. -/
def pyUpdateFunction (decode : Decoder) (now : Nat) (i : Nat) (vw vh : Nat)
    (s : AppState) : PyRes :=
  let s := { s with mwWidth := vw, mwHeight := vh }
  if s.imgFilePath ≠ [] then
    if i = 0 then
      match decode s.imgFilePath with
      | none => ⟨s, [], some .unidentifiedImage⟩
      | some (w, _h) =>
        let s := { s with imWidth := w, imTOut := thumbSlotPath }
        let thumbPix : Pix := ⟨.thumbFile thumbSlotPath, vw, vh, true⟩
        let fullPix : Pix := ⟨.imageFile s.imgFilePath, vw, vh, true⟩
        ⟨{ s with label := some fullPix },
         [.saveThumb thumbSlotPath, .setPixmap thumbPix,
          .setInfoLabels (pyBasename s.imgFilePath), .setPixmap fullPix],
         none⟩
    else if i = 1 then
      let armed := if s.timer.isSome then ((s, []) : AppState × List Eff)
        else ({ s with timer := some (now + 250) }, [Eff.timerStart 250])
      let s := armed.1
      let lowPix : Pix := ⟨.thumbFile s.imTOut, vw, vh, false⟩
      ⟨{ s with label := some lowPix }, armed.2 ++ [.setPixmap lowPix], none⟩
    else ⟨s, [], none⟩
  else ⟨s, [], none⟩

/-- Translation of `updateTimerFunc(self)`: redraw the label from the current
`self.imgFilePath` at the last recorded geometry with smooth interpolation,
then stop the timer. -/
def pyUpdateTimerFunc (s : AppState) : AppState × List Eff :=
  let pix : Pix := ⟨.imageFile s.imgFilePath, s.mwWidth, s.mwHeight, true⟩
  ({ s with label := some pix, timer := none }, [.setPixmap pix, .timerStop])

/-- Tail of `dirMakeImageList` once the rebuilt non-empty list has been
installed and `self.imageNumber` has been set: read the entry at the current
index into `self.imgFilePath`, run `updateFunction(0)`, and enable the
navigation buttons. -/
def dirScanFinish (decode : Decoder) (now : Nat) (scanEffs : List Eff)
    (s : AppState) : PyRes :=
  match pyGet s.dirImageList s.imageNumber with
  | none => ⟨s, scanEffs, some .indexError⟩
  | some p =>
    let s := { s with imgFilePath := p }
    let r := pyUpdateFunction decode now 0 s.mwWidth s.mwHeight s
    match r.err with
    | some e => ⟨r.s, scanEffs ++ r.effs, some e⟩
    | none => ⟨r.s, scanEffs ++ r.effs ++ [.enableNavButtons], none⟩

/-- Translation of `dirMakeImageList(self, hasOpenedImage)`: glob the five
patterns against `self.dirPath`, normalise and sort.  A non-empty result
replaces `self.dirImageList`; the index is the position of `self.imgFilePath`
when `hasOpenedImage == 1` (raising `ValueError` when absent) and `0`
otherwise.  An empty result only logs and leaves the previous list and index
in place. -/
def pyDirMakeImageList (decode : Decoder) (fsList : FS) (now : Nat)
    (hasOpenedImage : Nat) (s : AppState) : PyRes :=
  let d := globDirname s.dirPath
  let scanEffs := [Eff.scanDir d]
  let l := scanEntries (fsList d) s.dirPath
  if l.length ≠ 0 then
    let s := { s with dirImageList := l }
    if hasOpenedImage = 1 then
      match pyIndex l s.imgFilePath with
      | none => ⟨s, scanEffs, some .valueError⟩
      | some n => dirScanFinish decode now scanEffs { s with imageNumber := (n : Int) }
    else dirScanFinish decode now scanEffs { s with imageNumber := 0 }
  else ⟨s, scanEffs ++ [.logScanEmpty], none⟩

/-- Translation of `openImage(self)` once the file dialog has returned
`chosen` (the empty string is the cancelled dialog).  `self.imgFilePath` is
assigned first; the parent directory is then compared against `self.dirPath`:
a differing (or previously blank) directory triggers a rescan with
`hasOpenedImage = 1`, while an unchanged directory only repositions
`self.imageNumber` via `list.index` without rescanning. -/
def pyOpenImage (decode : Decoder) (fsList : FS) (now : Nat) (chosen : Str)
    (s : AppState) : PyRes :=
  let s := { s with imgFilePath := chosen }
  if s.imgFilePath ≠ [] then
    let dirP := pyDirOf s.imgFilePath
    if s.dirPath ≠ [] then
      if s.dirPath ≠ dirP then
        pyDirMakeImageList decode fsList now 1 { s with dirPath := dirP }
      else
        match pyIndex s.dirImageList s.imgFilePath with
        | none => ⟨s, [], some .valueError⟩
        | some n => ⟨{ s with imageNumber := (n : Int) }, [], none⟩
    else
      pyDirMakeImageList decode fsList now 1 { s with dirPath := dirP }
  else ⟨s, [], none⟩

/-- Translation of `prevImage(self)`: decrement `self.imageNumber`, wrapping
from `0` to `len - 1`, then display the entry at the new index. -/
def pyPrevImage (decode : Decoder) (now : Nat) (s : AppState) : PyRes :=
  let s := { s with imageNumber :=
    if s.imageNumber ≠ 0 then s.imageNumber - 1
    else (s.dirImageList.length : Int) - 1 }
  match pyGet s.dirImageList s.imageNumber with
  | none => ⟨s, [], some .indexError⟩
  | some p => pyUpdateFunction decode now 0 s.mwWidth s.mwHeight { s with imgFilePath := p }

/-- Translation of `nextImage(self)`: increment `self.imageNumber`, wrapping
from `len - 1` to `0`, then display the entry at the new index. -/
def pyNextImage (decode : Decoder) (now : Nat) (s : AppState) : PyRes :=
  let s := { s with imageNumber :=
    if s.imageNumber ≠ (s.dirImageList.length : Int) - 1 then s.imageNumber + 1
    else 0 }
  match pyGet s.dirImageList s.imageNumber with
  | none => ⟨s, [], some .indexError⟩
  | some p => pyUpdateFunction decode now 0 s.mwWidth s.mwHeight { s with imgFilePath := p }

/-- The displayed pixmap is the low-fidelity rendition: drawn from the
thumbnail slot without smooth interpolation. -/
def labelIsLow (s : AppState) : Bool :=
  match s.label with
  | some pix => (match pix.src with | .thumbFile _ => true | .imageFile _ => false)
      && !pix.smooth
  | none => false

/-- Event-loop driver for a burst of viewport resize events at the given
times: each event runs `updateFunction(1)`; if the armed timer deadline is
reached before an event (or after the last one), `updateTimerFunc` fires
first.  The result records each timer firing as the pair of its time and
whether the display was low-fidelity at that moment (a firing from a
low-fidelity display is exactly an upgrade transition to high fidelity). -/
def runResizes (decode : Decoder) (vw vh : Nat) (s : AppState) :
    List Nat → List (Nat × Bool)
  | [] =>
    match s.timer with
    | some d => [(d, labelIsLow s)]
    | none => []
  | t :: ts =>
    match s.timer with
    | some d =>
      if d ≤ t then
        let s1 := (pyUpdateTimerFunc s).1
        (d, labelIsLow s) :: runResizes decode vw vh (pyUpdateFunction decode t 1 vw vh s1).s ts
      else
        runResizes decode vw vh (pyUpdateFunction decode t 1 vw vh s).s ts
    | none => runResizes decode vw vh (pyUpdateFunction decode t 1 vw vh s).s ts

/-- The name-independent prefix that `osJoin d` prepends to every joined name. -/
def joinPre (d : Str) : Str :=
  if d = [] then [] else if d.getLast? = some '/' then d else d ++ ['/']

/-- Decoder oracle on which every file decodes, with fixed dimensions. -/
def decodeOk : Decoder := fun _ => some (100, 50)

/-- Decoder oracle on which no file decodes (every file is corrupt). -/
def decodeFail : Decoder := fun _ => none

/-- Filesystem oracle: directory `/d` holds the single supported name `b.png`. -/
def fsOneB : FS := fun d => if d = ['/', 'd'] then [['b', '.', 'p', 'n', 'g']] else []

/-- Filesystem oracle with no files anywhere. -/
def fsNone : FS := fun _ => []

/-- The freshly constructed `MainUi` state: `self.dirPath = ""`,
`self.imgFilePath = ""` and an inactive timer. -/
def initState : AppState := {}

/-- A steady session state: an image `o` from directory `/e/` is selected and
displayed in high fidelity, with no timer armed. -/
def steadyState : AppState :=
  { dirPath := ['/', 'e', '/'], imgFilePath := ['o'], dirImageList := [['o']],
    imageNumber := 0, mwWidth := 8, mwHeight := 6,
    label := some ⟨.imageFile ['o'], 8, 6, true⟩ }

/-- A session state in `/d/` with two entries, the second selected, displayed
in high fidelity, thumbnail slot populated. -/
def twoEntryState : AppState :=
  { dirPath := ['/', 'd', '/'],
    imgFilePath := ['/', 'd', '/', 'b', '.', 'p', 'n', 'g'],
    dirImageList := [['/', 'd', '/', 'a', '.', 'p', 'n', 'g'],
                     ['/', 'd', '/', 'b', '.', 'p', 'n', 'g']],
    imageNumber := 1, mwWidth := 8, mwHeight := 6, imTOut := thumbSlotPath,
    label := some ⟨.imageFile ['/', 'd', '/', 'b', '.', 'p', 'n', 'g'], 8, 6, true⟩ }

/-- Like `twoEntryState` but with the upgrade timer armed with deadline 300. -/
def twoEntryArmed : AppState := { twoEntryState with timer := some 300 }

/-- A selected, displayed image with the thumbnail slot populated and no
timer armed, ready for a resize burst. -/
def burstReady : AppState :=
  { imgFilePath := ['a'], imTOut := thumbSlotPath, mwWidth := 8, mwHeight := 6,
    label := some ⟨.imageFile ['a'], 8, 6, true⟩ }

/-- A hidden file name carrying a supported extension. -/
def hiddenName : Str := ['.', 'h', '.', 'p', 'n', 'g']

/-- Directory listing with mixed-case supported names, for witnesses. -/
def mixedNames : List Str :=
  [['B', '.', 'p', 'n', 'g'], ['a', '.', 'j', 'p', 'g'], ['x', '.', 't', 'x', 't']]

/-- The image path `/a/x.png`, whose parent directory is `/a`. -/
def chosenA : Str := ['/', 'a', '/', 'x', '.', 'p', 'n', 'g']

/-- Filesystem oracle: directory `/a` holds the single name `x.png`. -/
def fsOneX : FS := fun d => if d = ['/', 'a'] then [['x', '.', 'p', 'n', 'g']] else []

/-- A session state as `openDir` leaves it: `QFileDialog.getExistingDirectory`
returns the directory without a trailing separator, so `self.dirPath` is the
bare `/a`, with the single entry `/a/x.png` scanned and selected. -/
def openDirState : AppState :=
  { dirPath := ['/', 'a'], imgFilePath := chosenA, dirImageList := [chosenA],
    imageNumber := 0, mwWidth := 8, mwHeight := 6, imTOut := thumbSlotPath,
    label := some ⟨.imageFile chosenA, 8, 6, true⟩ }

theorem pyGet_natCast (l : List Str) (n : Nat) : pyGet l (n : Int) = l.get? n := by
  have h1 : ¬ ((n : Int) < 0) := by omega
  have h2 : (0 : Int) ≤ (n : Int) := by omega
  simp [pyGet, h1, h2]

theorem pyIndex_pyGet {l : List Str} {x : Str} {k : Nat}
    (h : pyIndex l x = some k) : pyGet l (k : Int) = some x := by
  rw [pyGet_natCast]
  induction l generalizing k with
  | nil => simp [pyIndex] at h
  | cons a as ih =>
    by_cases ha : a = x
    · simp [pyIndex, ha] at h
      subst h; subst ha; rfl
    · simp [pyIndex, ha] at h
      obtain ⟨k', hk', rfl⟩ := h
      simpa using ih hk'

theorem pyUpdateFunction_imageNumber (decode : Decoder) (now i vw vh : Nat)
    (s : AppState) :
    (pyUpdateFunction decode now i vw vh s).s.imageNumber = s.imageNumber := by
  simp only [pyUpdateFunction]
  repeat' split
  all_goals rfl

theorem pyUpdateFunction_dirImageList (decode : Decoder) (now i vw vh : Nat)
    (s : AppState) :
    (pyUpdateFunction decode now i vw vh s).s.dirImageList = s.dirImageList := by
  simp only [pyUpdateFunction]
  repeat' split
  all_goals rfl

theorem pyUpdateFunction_dirPath (decode : Decoder) (now i vw vh : Nat)
    (s : AppState) :
    (pyUpdateFunction decode now i vw vh s).s.dirPath = s.dirPath := by
  simp only [pyUpdateFunction]
  repeat' split
  all_goals rfl

theorem pyUpdateFunction_imgFilePath (decode : Decoder) (now i vw vh : Nat)
    (s : AppState) :
    (pyUpdateFunction decode now i vw vh s).s.imgFilePath = s.imgFilePath := by
  simp only [pyUpdateFunction]
  repeat' split
  all_goals rfl

theorem pyUpdateFunction_timer0 (decode : Decoder) (now vw vh : Nat)
    (s : AppState) :
    (pyUpdateFunction decode now 0 vw vh s).s.timer = s.timer := by
  simp only [pyUpdateFunction]
  repeat' split
  all_goals first | rfl | simp_all

theorem pyUpdateFunction_decodeFail (decode : Decoder) (now vw vh : Nat)
    (s : AppState) (himg : s.imgFilePath ≠ []) (hdec : decode s.imgFilePath = none) :
    pyUpdateFunction decode now 0 vw vh s =
      ⟨{ s with mwWidth := vw, mwHeight := vh }, [], some .unidentifiedImage⟩ := by
  unfold pyUpdateFunction
  simp [himg, hdec]

theorem pyUpdateFunction_resize_armed (decode : Decoder) (now vw vh : Nat)
    (s : AppState) (d : Nat) (himg : s.imgFilePath ≠ []) (ht : s.timer = some d) :
    pyUpdateFunction decode now 1 vw vh s =
      ⟨{ s with
          mwWidth := vw
          mwHeight := vh
          label := some ⟨.thumbFile s.imTOut, vw, vh, false⟩ },
       [.setPixmap ⟨.thumbFile s.imTOut, vw, vh, false⟩], none⟩ := by
  unfold pyUpdateFunction
  simp [himg, ht]

theorem pyUpdateFunction_resize_unarmed (decode : Decoder) (now vw vh : Nat)
    (s : AppState) (himg : s.imgFilePath ≠ []) (ht : s.timer = none) :
    pyUpdateFunction decode now 1 vw vh s =
      ⟨{ s with
          mwWidth := vw
          mwHeight := vh
          timer := some (now + 250)
          label := some ⟨.thumbFile s.imTOut, vw, vh, false⟩ },
       [.timerStart 250, .setPixmap ⟨.thumbFile s.imTOut, vw, vh, false⟩], none⟩ := by
  unfold pyUpdateFunction
  simp [himg, ht]

theorem pyNextImage_imageNumber (decode : Decoder) (now : Nat) (s : AppState) :
    (pyNextImage decode now s).s.imageNumber =
      if s.imageNumber ≠ (s.dirImageList.length : Int) - 1 then s.imageNumber + 1
      else 0 := by
  simp only [pyNextImage]
  split
  · rfl
  · rw [pyUpdateFunction_imageNumber]

theorem pyPrevImage_imageNumber (decode : Decoder) (now : Nat) (s : AppState) :
    (pyPrevImage decode now s).s.imageNumber =
      if s.imageNumber ≠ 0 then s.imageNumber - 1
      else (s.dirImageList.length : Int) - 1 := by
  simp only [pyPrevImage]
  split
  · rfl
  · rw [pyUpdateFunction_imageNumber]

theorem pyNextImage_dirImageList (decode : Decoder) (now : Nat) (s : AppState) :
    (pyNextImage decode now s).s.dirImageList = s.dirImageList := by
  simp only [pyNextImage]
  split
  · rfl
  · rw [pyUpdateFunction_dirImageList]

theorem pyPrevImage_dirImageList (decode : Decoder) (now : Nat) (s : AppState) :
    (pyPrevImage decode now s).s.dirImageList = s.dirImageList := by
  simp only [pyPrevImage]
  split
  · rfl
  · rw [pyUpdateFunction_dirImageList]

/-- C10: while `self.imgFilePath` is still the empty string (no image ever
selected), a call to the resize/update entry point `updateFunction` only
records the new viewport geometry: it produces no pixmap, writes no thumbnail,
starts no timer, raises nothing, and leaves every other state field unchanged. -/
theorem claim10_update_noop_without_selection (decode : Decoder)
    (now i vw vh : Nat) (s : AppState) (h : s.imgFilePath = []) :
    pyUpdateFunction decode now i vw vh s =
      ⟨{ s with mwWidth := vw, mwHeight := vh }, [], none⟩ := by
  unfold pyUpdateFunction
  simp [h]

/-- Witness for C10 at a concrete freshly initialised state. -/
theorem claim10_witness :
    initState.imgFilePath = [] ∧
    pyUpdateFunction decodeOk 7 1 640 480 initState =
      ⟨{ initState with mwWidth := 640, mwHeight := 480 }, [], none⟩ :=
  ⟨rfl, claim10_update_noop_without_selection decodeOk 7 1 640 480 initState rfl⟩

/-- C8: with a non-empty entries list, `nextImage` at the last index wraps the
selection index to 0 and otherwise increments it; `prevImage` at index 0 wraps
to the last index and otherwise decrements it. -/
theorem claim8_wraparound (decode : Decoder) (now : Nat) (s : AppState)
    (_hne : s.dirImageList ≠ []) :
    (s.imageNumber = (s.dirImageList.length : Int) - 1 →
      (pyNextImage decode now s).s.imageNumber = 0)
    ∧ (s.imageNumber ≠ (s.dirImageList.length : Int) - 1 →
      (pyNextImage decode now s).s.imageNumber = s.imageNumber + 1)
    ∧ (s.imageNumber = 0 →
      (pyPrevImage decode now s).s.imageNumber = (s.dirImageList.length : Int) - 1)
    ∧ (s.imageNumber ≠ 0 →
      (pyPrevImage decode now s).s.imageNumber = s.imageNumber - 1) := by
  refine ⟨fun h => ?_, fun h => ?_, fun h => ?_, fun h => ?_⟩ <;>
    simp [pyNextImage_imageNumber, pyPrevImage_imageNumber, h]

/-- Witness for C8 on a concrete two-entry list with the last index selected. -/
theorem claim8_witness :
    twoEntryState.dirImageList ≠ [] ∧
    (pyNextImage decodeOk 0 twoEntryState).s.imageNumber = 0 ∧
    (pyPrevImage decodeOk 0 twoEntryState).s.imageNumber = 0 :=
  ⟨by decide,
   (claim8_wraparound decodeOk 0 twoEntryState (by decide)).1 (by decide),
   by
    have h := (claim8_wraparound decodeOk 0 twoEntryState (by decide)).2.2.2 (by decide)
    simpa using h⟩

/-- C9: from any valid selection index in a non-empty entries list,
`nextImage` followed by `prevImage` restores the index, and `prevImage`
followed by `nextImage` restores it as well. -/
theorem claim9_roundtrip (decode : Decoder) (now : Nat) (s : AppState)
    (h0 : 0 ≤ s.imageNumber) (hlt : s.imageNumber < (s.dirImageList.length : Int)) :
    (pyPrevImage decode now (pyNextImage decode now s).s).s.imageNumber = s.imageNumber
    ∧ (pyNextImage decode now (pyPrevImage decode now s).s).s.imageNumber = s.imageNumber := by
  constructor
  · simp only [pyPrevImage_imageNumber, pyNextImage_imageNumber, pyNextImage_dirImageList]
    split_ifs <;> omega
  · simp only [pyNextImage_imageNumber, pyPrevImage_imageNumber, pyPrevImage_dirImageList]
    split_ifs <;> omega

/-- Witness for C9 at a concrete state with the second of two entries selected. -/
theorem claim9_witness :
    (pyPrevImage decodeOk 0 (pyNextImage decodeOk 0 twoEntryState).s).s.imageNumber
      = twoEntryState.imageNumber
    ∧ (pyNextImage decodeOk 0 (pyPrevImage decodeOk 0 twoEntryState).s).s.imageNumber
      = twoEntryState.imageNumber :=
  claim9_roundtrip decodeOk 0 twoEntryState (by decide) (by decide)

/-- C5: when the rebuilt file list of a rescan comes out empty,
`dirMakeImageList` leaves both `self.dirImageList` (entries) and
`self.imageNumber` (selected index) untouched, reports the empty scan (the
logged "it's empty! Not setting dirImageList" message, modelled as
`Eff.logScanEmpty`), and raises nothing: an empty rescan never clobbers an
existing valid selection. -/
theorem claim5_empty_rescan_preserves_selection (decode : Decoder) (fsList : FS)
    (now hasOpenedImage : Nat) (s : AppState)
    (hempty : scanEntries (fsList (globDirname s.dirPath)) s.dirPath = []) :
    pyDirMakeImageList decode fsList now hasOpenedImage s =
      ⟨s, [Eff.scanDir (globDirname s.dirPath), Eff.logScanEmpty], none⟩ := by
  unfold pyDirMakeImageList
  simp [hempty]

/-- Witness for C5: a rescan of an empty filesystem from a state holding a
valid two-entry selection. -/
theorem claim5_witness :
    twoEntryState.dirImageList ≠ [] ∧
    pyDirMakeImageList decodeOk fsNone 0 1 twoEntryState =
      ⟨twoEntryState, [Eff.scanDir (globDirname twoEntryState.dirPath),
        Eff.logScanEmpty], none⟩ :=
  ⟨by decide,
   claim5_empty_rescan_preserves_selection decodeOk fsNone 0 1 twoEntryState (by decide)⟩

/-- C7 counterexample: after `openDir("/a")` the stored `self.dirPath` is the
bare `/a` — `QFileDialog.getExistingDirectory` returns no trailing separator.
Selecting `/a/x.png`, a path whose parent directory IS the current
directoryPath (the first two conjuncts certify `chosen = dirPath + "/" +
basename` with a slash-free basename), nevertheless performs a full rescan:
`openImage` computes the parent via `str.replace` as `"/a/"` (trailing slash
kept), the string comparison with `"/a"` fails, and `dirMakeImageList(1)` runs
— the emitted `scanDir` effect is exactly what the rescan-count probe of the
spec would count, refuting "no directory rescan is performed". -/
theorem claim7_counterexample :
    chosenA = openDirState.dirPath ++ '/' :: pyBasename chosenA
    ∧ ('/' : Char) ∉ pyBasename chosenA
    ∧ Eff.scanDir ['/', 'a'] ∈ (pyOpenImage decodeOk fsOneX 0 chosenA openDirState).effs := by
  decide

/-- C7 amended: `openImage` skips the rescan only when the current
`self.dirPath` is string-equal to the parent it computes with `str.replace`
(basename removed, trailing slash kept).  In exactly that case the call
performs no rescan (the result carries no `scanDir` effect, the entries list
is untouched, and the filesystem oracle is never consulted: the result does
not depend on it) and just repositions `self.imageNumber` to the index of the
chosen path in the existing entries list; a same-directory path whose stored
`dirPath` spells the directory differently (e.g. without the trailing slash,
as `openDir` stores it) is rescanned instead. -/
theorem claim7_same_dir_no_rescan (decode : Decoder) (fsList : FS) (now : Nat)
    (chosen : Str) (s : AppState) (k : Nat) (hch : chosen ≠ [])
    (hdp : s.dirPath ≠ []) (hsame : s.dirPath = pyDirOf chosen)
    (hidx : pyIndex s.dirImageList chosen = some k) :
    pyOpenImage decode fsList now chosen s =
      ⟨{ s with imgFilePath := chosen, imageNumber := (k : Int) }, [], none⟩ := by
  unfold pyOpenImage
  simp [hch, hdp, ← hsame, hidx]

/-- Witness for C7: stepping from the second to the first entry of `/d/`
without a rescan. -/
theorem claim7_witness :
    twoEntryState.dirPath = pyDirOf ['/', 'd', '/', 'a', '.', 'p', 'n', 'g'] ∧
    pyOpenImage decodeOk fsNone 0 ['/', 'd', '/', 'a', '.', 'p', 'n', 'g'] twoEntryState =
      ⟨{ twoEntryState with
          imgFilePath := ['/', 'd', '/', 'a', '.', 'p', 'n', 'g']
          imageNumber := 0 }, [], none⟩ :=
  ⟨by decide,
   claim7_same_dir_no_rescan decodeOk fsNone 0 ['/', 'd', '/', 'a', '.', 'p', 'n', 'g']
     twoEntryState 0 (by decide) (by decide) (by decide) (by decide)⟩

theorem dirScanFinish_timer (decode : Decoder) (now : Nat) (scanEffs : List Eff)
    (s : AppState) : (dirScanFinish decode now scanEffs s).s.timer = s.timer := by
  simp only [dirScanFinish]
  split
  · rfl
  · split <;> simp [pyUpdateFunction_timer0]

theorem pyDirMakeImageList_timer (decode : Decoder) (fsList : FS)
    (now hasOpenedImage : Nat) (s : AppState) :
    (pyDirMakeImageList decode fsList now hasOpenedImage s).s.timer = s.timer := by
  simp only [pyDirMakeImageList]
  repeat' split
  all_goals simp [dirScanFinish_timer]

/-- C4 counterexample: with the upgrade timer armed (deadline 300), selecting
the different image `/d/a.png` from the same directory leaves the timer armed
with the same deadline — `openImage` contains no `timer.stop()` and does not
disarm the pending upgrade timer. -/
theorem claim4_counterexample :
    twoEntryArmed.timer = some 300 ∧
    ['/', 'd', '/', 'a', '.', 'p', 'n', 'g'] ≠ twoEntryArmed.imgFilePath ∧
    (pyOpenImage decodeOk fsNone 0 ['/', 'd', '/', 'a', '.', 'p', 'n', 'g']
        twoEntryArmed).s.timer = some 300 := by
  decide

/-- C4 amended: `openImage` never disarms (nor arms) a pending upgrade timer —
the timer field survives every branch of the call unchanged; the stale timer
does remain armed, but when it later fires, `updateTimerFunc` reads the live
`self.imgFilePath`, so the firing re-renders the selection current at fire
time rather than the path that was selected when the timer was armed. -/
theorem claim4_amended_timer_survives_selection (decode : Decoder) (fsList : FS)
    (now : Nat) (chosen : Str) (s : AppState) :
    (pyOpenImage decode fsList now chosen s).s.timer = s.timer
    ∧ (pyUpdateTimerFunc (pyOpenImage decode fsList now chosen s).s).1.label =
        some ⟨.imageFile (pyOpenImage decode fsList now chosen s).s.imgFilePath,
          (pyOpenImage decode fsList now chosen s).s.mwWidth,
          (pyOpenImage decode fsList now chosen s).s.mwHeight, true⟩ := by
  constructor
  · simp only [pyOpenImage]
    repeat' split
    all_goals simp [pyDirMakeImageList_timer]
  · rfl

theorem runResizes_armed (decode : Decoder) (vw vh d : Nat) :
    ∀ (ts : List Nat) (s : AppState), s.imgFilePath ≠ [] → s.timer = some d →
      labelIsLow s = true → (∀ t ∈ ts, t < d) →
      runResizes decode vw vh s ts = [(d, true)] := by
  intro ts
  induction ts with
  | nil =>
    intro s _ ht hlow _
    simp [runResizes, ht, hlow]
  | cons t ts ih =>
    intro s himg ht hlow hts
    have hlt : t < d := hts t (List.mem_cons_self t ts)
    have hnd : ¬ d ≤ t := by omega
    rw [runResizes, ht]
    simp only [hnd, if_false]
    rw [pyUpdateFunction_resize_armed decode t vw vh s d himg ht]
    exact ih _ himg ht rfl (fun u hu => hts u (List.mem_cons_of_mem t hu))

/-- C1 counterexample: a burst of two resize events at times 0 and 100 (both
inside the 250-unit window opened at the first event).  The pipeline performs
exactly one upgrade firing, but at time 250 — 250 units after the FIRST resize
of the burst — not at time 350 as the claim (250 units after the last call)
states: `updateFunction(1)` only starts the timer when it is not already
active and never rearms it on later resizes. -/
theorem claim1_counterexample :
    runResizes decodeOk 4 3 burstReady [0, 100] = [(250, true)]
    ∧ runResizes decodeOk 4 3 burstReady [0, 100] ≠ [(100 + 250, true)] := by
  decide

/-- C1 amended: for every burst of resize calls beginning at time `t0` whose
later calls all fall before the deadline `t0 + 250` armed by the first call,
the pipeline performs exactly one upgrade firing, from a low-fidelity display,
and it occurs 250 time units after the FIRST resize call of the burst. -/
theorem claim1_burst_single_upgrade (decode : Decoder) (vw vh : Nat)
    (s : AppState) (t0 : Nat) (ts : List Nat) (himg : s.imgFilePath ≠ [])
    (ht : s.timer = none) (hts : ∀ t ∈ ts, t < t0 + 250) :
    runResizes decode vw vh s (t0 :: ts) = [(t0 + 250, true)] := by
  rw [runResizes, ht]
  rw [pyUpdateFunction_resize_unarmed decode t0 vw vh s himg ht]
  exact runResizes_armed decode vw vh (t0 + 250) ts _ himg rfl rfl hts

/-- Witness for C1 amended: a three-call burst at times 5, 7, 200 from a
ready state fires exactly once, at 255. -/
theorem claim1_witness :
    runResizes decodeOk 4 3 burstReady [5, 7, 200] = [(5 + 250, true)] :=
  claim1_burst_single_upgrade decodeOk 4 3 burstReady 5 [7, 200] (by decide)
    (by decide) (by decide)

theorem pyOpenImage_rescan (decode : Decoder) (fsList : FS) (now : Nat)
    (chosen : Str) (s : AppState) (hch : chosen ≠ [])
    (hb : s.dirPath = [] ∨ s.dirPath ≠ pyDirOf chosen) :
    pyOpenImage decode fsList now chosen s =
      pyDirMakeImageList decode fsList now 1
        { s with imgFilePath := chosen, dirPath := pyDirOf chosen } := by
  unfold pyOpenImage
  rcases hb with hb | hb
  · simp [hch, hb]
  · by_cases hdp : s.dirPath = []
    · simp [hch, hdp]
    · simp [hch, hdp, hb]

/-- C6 counterexample: opening `/d/x.gg` (unsupported extension) from a fresh
state rescans `/d`, rebuilds a non-empty entries list that does not contain
the chosen path, and `self.dirImageList.index(self.imgFilePath)` raises an
uncaught `ValueError` — the call crashes instead of returning a typed
`NotFound` result. -/
theorem claim6_counterexample :
    (pyOpenImage decodeOk fsOneB 0 ['/', 'd', '/', 'x', '.', 'g', 'g'] initState).err
      = some PyErr.valueError := by
  decide

/-- C6 amended: when `openImage` triggers a rescan whose rebuilt non-empty
entries list does not contain the chosen path, the call raises an uncaught
`ValueError` (Python `list.index`), with `self.dirPath` and
`self.dirImageList` already rebuilt at the time of the raise; no typed result
is produced. -/
theorem claim6_amended_missing_path_raises (decode : Decoder) (fsList : FS)
    (now : Nat) (chosen : Str) (s : AppState) (hch : chosen ≠ [])
    (hb : s.dirPath = [] ∨ s.dirPath ≠ pyDirOf chosen)
    (hne : scanEntries (fsList (globDirname (pyDirOf chosen))) (pyDirOf chosen) ≠ [])
    (hmiss : pyIndex (scanEntries (fsList (globDirname (pyDirOf chosen)))
      (pyDirOf chosen)) chosen = none) :
    pyOpenImage decode fsList now chosen s =
      ⟨{ s with
          imgFilePath := chosen
          dirPath := pyDirOf chosen
          dirImageList := scanEntries (fsList (globDirname (pyDirOf chosen)))
            (pyDirOf chosen) },
       [Eff.scanDir (globDirname (pyDirOf chosen))], some PyErr.valueError⟩ := by
  rw [pyOpenImage_rescan decode fsList now chosen s hch hb]
  unfold pyDirMakeImageList
  simp [hne, hmiss]

/-- Witness for C6 amended, at the inputs of the counterexample scenario. -/
theorem claim6_witness :
    pyOpenImage decodeOk fsOneB 0 ['/', 'd', '/', 'x', '.', 'g', 'g'] initState =
      ⟨{ initState with
          imgFilePath := ['/', 'd', '/', 'x', '.', 'g', 'g']
          dirPath := ['/', 'd', '/']
          dirImageList := [['/', 'd', '/', 'b', '.', 'p', 'n', 'g']] },
       [Eff.scanDir ['/', 'd']], some PyErr.valueError⟩ := by
  have h := claim6_amended_missing_path_raises decodeOk fsOneB 0
    ['/', 'd', '/', 'x', '.', 'g', 'g'] initState (by decide) (Or.inl rfl)
    (by decide) (by decide)
  rw [h]
  decide

/-- C3 counterexample: selecting the corrupt (undecodable) file `/d/b.png`
from the steady state showing image `o` of `/e/` raises an uncaught exception
from `PIL.Image.open` (no typed `DecodeError` result), and the previous render
state is NOT preserved: `self.imgFilePath` has already been replaced by the
new path when the exception occurs (a partial update). -/
theorem claim3_counterexample :
    (pyOpenImage decodeFail fsOneB 0 ['/', 'd', '/', 'b', '.', 'p', 'n', 'g']
        steadyState).err = some PyErr.unidentifiedImage
    ∧ (pyOpenImage decodeFail fsOneB 0 ['/', 'd', '/', 'b', '.', 'p', 'n', 'g']
        steadyState).s.imgFilePath ≠ steadyState.imgFilePath := by
  decide

/-- C3 amended: selecting an undecodable image in a different directory
raises the decode exception uncaught, after `self.dirPath`,
`self.dirImageList`, `self.imageNumber` and `self.imgFilePath` have already
been updated (a partial update of the selection state); only the displayed
buffer (`label`) is untouched, because the exception precedes every
`setPixmap`, and the only effect emitted is the directory scan. -/
theorem claim3_amended_decode_failure_partial_update (decode : Decoder)
    (fsList : FS) (now : Nat) (chosen : Str) (s : AppState) (k : Nat)
    (hch : chosen ≠ [])
    (hb : s.dirPath = [] ∨ s.dirPath ≠ pyDirOf chosen)
    (hidx : pyIndex (scanEntries (fsList (globDirname (pyDirOf chosen)))
      (pyDirOf chosen)) chosen = some k)
    (hdec : decode chosen = none) :
    pyOpenImage decode fsList now chosen s =
      ⟨{ s with
          imgFilePath := chosen
          dirPath := pyDirOf chosen
          dirImageList := scanEntries (fsList (globDirname (pyDirOf chosen)))
            (pyDirOf chosen)
          imageNumber := (k : Int) },
       [Eff.scanDir (globDirname (pyDirOf chosen))],
       some PyErr.unidentifiedImage⟩ := by
  have hne : scanEntries (fsList (globDirname (pyDirOf chosen))) (pyDirOf chosen) ≠ [] := by
    intro h
    rw [h] at hidx
    simp [pyIndex] at hidx
  rw [pyOpenImage_rescan decode fsList now chosen s hch hb]
  unfold pyDirMakeImageList
  simp only [hne, hidx]
  have hget := pyIndex_pyGet hidx
  unfold dirScanFinish
  simp only [hget]
  rw [pyUpdateFunction_decodeFail decode now _ _ _ hch hdec]
  simp [hne]

/-- Witness for C3 amended, at the inputs of the counterexample scenario. -/
theorem claim3_witness :
    pyOpenImage decodeFail fsOneB 0 ['/', 'd', '/', 'b', '.', 'p', 'n', 'g'] steadyState =
      ⟨{ steadyState with
          imgFilePath := ['/', 'd', '/', 'b', '.', 'p', 'n', 'g']
          dirPath := ['/', 'd', '/']
          dirImageList := [['/', 'd', '/', 'b', '.', 'p', 'n', 'g']]
          imageNumber := 0 },
       [Eff.scanDir ['/', 'd']], some PyErr.unidentifiedImage⟩ := by
  have h := claim3_amended_decode_failure_partial_update decodeFail fsOneB 0
    ['/', 'd', '/', 'b', '.', 'p', 'n', 'g'] steadyState 0 (by decide)
    (Or.inr (by decide)) (by decide) rfl
  rw [h]
  decide

theorem normSlash_eq_self {s : Str} (h : ('\\' : Char) ∉ s) : normSlash s = s := by
  induction s with
  | nil => rfl
  | cons c cs ih =>
    simp only [List.mem_cons, not_or] at h
    simp [normSlash] at ih ⊢
    exact ⟨fun hc => absurd hc.symm h.1, ih h.2⟩

theorem mem_globDirname {c : Char} {dp : Str} (h : c ∈ globDirname dp) :
    c ∈ dp ∨ c = '/' := by
  simp only [globDirname] at h
  split at h
  · simpa using h
  · rw [List.mem_reverse] at h
    have h3 := (List.dropWhile_sublist (fun c => decide (c = '/'))).subset h
    rw [List.mem_reverse] at h3
    rcases List.mem_append.mp h3 with h4 | h4
    · exact Or.inl h4
    · right
      simpa using h4

theorem mem_osJoin {c : Char} {d n : Str} (h : c ∈ osJoin d n) :
    c ∈ d ∨ c ∈ n ∨ c = '/' := by
  unfold osJoin at h
  split at h
  · exact Or.inr (Or.inl h)
  · split at h
    · rcases List.mem_append.mp h with h | h
      · exact Or.inl h
      · exact Or.inr (Or.inl h)
    · rcases List.mem_append.mp h with h | h
      · exact Or.inl h
      · rcases List.mem_cons.mp h with h | h
        · exact Or.inr (Or.inr h)
        · exact Or.inr (Or.inl h)

theorem osJoin_eq_joinPre (d n : Str) : osJoin d n = joinPre d ++ n := by
  unfold osJoin joinPre
  split_ifs <;> simp

theorem lowerStr_append (a b : Str) : lowerStr (a ++ b) = lowerStr a ++ lowerStr b := by
  simp [lowerStr]

theorem fileTypes_lower : ∀ e ∈ fileTypes, lowerStr e = e := by decide

theorem fileTypes_suffix_antisymm :
    ∀ e1 ∈ fileTypes, ∀ e2 ∈ fileTypes, (e1 <:+ e2 ∨ e2 <:+ e1) → e1 = e2 := by
  decide

theorem globMatch_iff {ext n : Str} :
    globMatch ext n = true ↔ ext <:+ n ∧ n.head? ≠ some '.' := by
  simp [globMatch, List.isSuffixOf_iff_suffix]

theorem supportedExt_iff {n : Str} :
    supportedExt n = true ↔ ∃ e ∈ fileTypes, e <:+ n := by
  simp [supportedExt, List.any_eq_true, List.isSuffixOf_iff_suffix]

theorem sublist_flatMap_of_mem {α β : Type} {e : α} {L : List α}
    (f : α → List β) {x : List β} (he : e ∈ L) (hx : List.Sublist x (f e)) :
    List.Sublist x (L.flatMap f) := by
  induction L with
  | nil => cases he
  | cons a L ih =>
    rw [List.flatMap_cons]
    rcases List.mem_cons.mp he with rfl | he
    · exact hx.trans (List.sublist_append_left _ _)
    · exact (ih he).trans (List.sublist_append_right _ _)

/-- C2 counterexample: the hidden file `.h.png` carries a supported extension,
yet a scan of a directory containing exactly that file produces an empty
entries list — glob patterns like `*.png` never match names starting with a
dot, so the entries list does not contain exactly the files with supported
extensions. -/
theorem claim2_counterexample :
    supportedExt hiddenName = true
    ∧ scanEntries [hiddenName] ['/', 'd'] = [] := by
  decide

/-- C2 amended: for a directory listing (in enumeration order) free of
backslashes, the rebuilt entries list contains exactly the NON-HIDDEN files
with supported extensions (joined to the scanned directory), is sorted
case-insensitively by full path, and ties between case-insensitively equal
full paths keep their enumeration order (the sort is stable). -/
theorem claim2_amended_scan_exact_sorted_stable (names : List Str) (dirPath : Str)
    (hnb : ∀ n ∈ names, ('\\' : Char) ∉ n) (hdb : ('\\' : Char) ∉ dirPath) :
    (∀ p, p ∈ scanEntries names dirPath ↔
      ∃ n, n ∈ names ∧ supportedExt n = true ∧ n.head? ≠ some '.' ∧
        p = osJoin (globDirname dirPath) n)
    ∧ List.Sorted lowRel (scanEntries names dirPath)
    ∧ (∀ n1 n2, List.Sublist [n1, n2] names →
        supportedExt n1 = true → n1.head? ≠ some '.' →
        supportedExt n2 = true → n2.head? ≠ some '.' →
        lowerStr (osJoin (globDirname dirPath) n1) =
          lowerStr (osJoin (globDirname dirPath) n2) →
        List.Sublist [osJoin (globDirname dirPath) n1, osJoin (globDirname dirPath) n2]
          (scanEntries names dirPath)) := by
  have hdslash : ('\\' : Char) ∉ globDirname dirPath := by
    intro hc
    rcases mem_globDirname hc with h | h
    · exact hdb h
    · exact absurd h (by decide)
  have hjoin : ∀ n ∈ names, normSlash (osJoin (globDirname dirPath) n) =
      osJoin (globDirname dirPath) n := by
    intro n hn
    refine normSlash_eq_self ?_
    intro hc
    rcases mem_osJoin hc with h | h | h
    · exact hdslash h
    · exact hnb n hn h
    · exact absurd h (by decide)
  refine ⟨?_, ?_, ?_⟩
  · intro p
    simp only [scanEntries, List.mem_insertionSort, List.mem_map, List.mem_flatMap,
      List.mem_filter]
    constructor
    · rintro ⟨q, ⟨ext, hext, n, ⟨hn, hmatch⟩, rfl⟩, rfl⟩
      obtain ⟨hsuf, hhid⟩ := globMatch_iff.mp hmatch
      exact ⟨n, hn, supportedExt_iff.mpr ⟨ext, hext, hsuf⟩, hhid, (hjoin n hn).symm ▸ rfl⟩
    · rintro ⟨n, hn, hsupp, hhid, rfl⟩
      obtain ⟨ext, hext, hsuf⟩ := supportedExt_iff.mp hsupp
      exact ⟨osJoin (globDirname dirPath) n,
        ⟨ext, hext, n, ⟨hn, globMatch_iff.mpr ⟨hsuf, hhid⟩⟩, rfl⟩, hjoin n hn⟩
  · simp only [scanEntries]
    exact List.sorted_insertionSort lowRel _
  · intro n1 n2 hsub hs1 hh1 hs2 hh2 htie
    obtain ⟨e1, he1, hsuf1⟩ := supportedExt_iff.mp hs1
    obtain ⟨e2, he2, hsuf2⟩ := supportedExt_iff.mp hs2
    have hn1names : n1 ∈ names := hsub.subset (by simp)
    have hn2names : n2 ∈ names := hsub.subset (by simp)
    have htie' : lowerStr n1 = lowerStr n2 := by
      rw [osJoin_eq_joinPre, osJoin_eq_joinPre, lowerStr_append, lowerStr_append] at htie
      exact List.append_cancel_left htie
    have hlow1 : e1 <:+ lowerStr n1 := by
      have h := List.IsSuffix.map Char.toLower hsuf1
      have he : lowerStr e1 = e1 := fileTypes_lower e1 he1
      simpa [lowerStr, List.map] using he ▸ (by simpa [lowerStr] using h : lowerStr e1 <:+ lowerStr n1)
    have hlow2 : e2 <:+ lowerStr n2 := by
      have h := List.IsSuffix.map Char.toLower hsuf2
      have he : lowerStr e2 = e2 := fileTypes_lower e2 he2
      simpa [lowerStr, List.map] using he ▸ (by simpa [lowerStr] using h : lowerStr e2 <:+ lowerStr n2)
    have he12 : e1 = e2 := by
      refine fileTypes_suffix_antisymm e1 he1 e2 he2 ?_
      exact List.suffix_or_suffix_of_suffix (htie' ▸ hlow1) hlow2
    subst he12
    have hfil : List.Sublist [n1, n2] (names.filter (globMatch e1)) := by
      have h := hsub.filter (globMatch e1)
      have hm1 : globMatch e1 n1 = true := globMatch_iff.mpr ⟨hsuf1, hh1⟩
      have hm2 : globMatch e1 n2 = true := globMatch_iff.mpr ⟨hsuf2, hh2⟩
      simpa [List.filter, hm1, hm2] using h
    have hmap : List.Sublist
        [osJoin (globDirname dirPath) n1, osJoin (globDirname dirPath) n2]
        ((names.filter (globMatch e1)).map (osJoin (globDirname dirPath))) := by
      have h := hfil.map (osJoin (globDirname dirPath))
      simpa using h
    have hflat : List.Sublist
        [osJoin (globDirname dirPath) n1, osJoin (globDirname dirPath) n2]
        (fileTypes.flatMap (fun ext =>
          (names.filter (globMatch ext)).map (osJoin (globDirname dirPath)))) :=
      sublist_flatMap_of_mem _ he1 hmap
    have hns : List.Sublist
        [osJoin (globDirname dirPath) n1, osJoin (globDirname dirPath) n2]
        ((fileTypes.flatMap (fun ext =>
          (names.filter (globMatch ext)).map (osJoin (globDirname dirPath)))).map normSlash) := by
      have h := hflat.map normSlash
      simpa [hjoin n1 hn1names, hjoin n2 hn2names] using h
    have hrel : lowRel (osJoin (globDirname dirPath) n1) (osJoin (globDirname dirPath) n2) := by
      unfold lowRel
      rw [htie]
      exact lexLe_refl _
    simpa [scanEntries] using List.pair_sublist_insertionSort hrel hns

/-- Witness for C2 amended on the concrete listing `B.png, a.jpg, x.txt` of
directory `/d`. -/
theorem claim2_witness :
    (['/', 'd', '/', 'a', '.', 'j', 'p', 'g'] ∈ scanEntries mixedNames ['/', 'd'] ↔
      ∃ n, n ∈ mixedNames ∧ supportedExt n = true ∧ n.head? ≠ some '.' ∧
        ['/', 'd', '/', 'a', '.', 'j', 'p', 'g'] = osJoin (globDirname ['/', 'd']) n)
    ∧ List.Sorted lowRel (scanEntries mixedNames ['/', 'd']) :=
  ⟨(claim2_amended_scan_exact_sorted_stable mixedNames ['/', 'd'] (by decide)
      (by decide)).1 ['/', 'd', '/', 'a', '.', 'j', 'p', 'g'],
   (claim2_amended_scan_exact_sorted_stable mixedNames ['/', 'd'] (by decide)
      (by decide)).2.1⟩
